import Mathlib

/-!
# Verification of the slack-todoist serverless handler

A shallow embedding of `src/handlers/today.ts` (the primary variant and the
completed-tasks variant found in `part_000`) together with proofs of the
frozen claims about it.

Modelling conventions:
* JS strings are Lean `String`s; Node `Buffer.from(s, 'utf8')` is an explicit
  UTF-8 encoder producing `List Nat` (bytes).
* Machine integers are `Nat`/`Int` with explicit `% 2^32` where the SHA-256
  arithmetic overflows.
* `Date.now()` and the host time zone are ambient state, passed explicitly.
* A `datetime` field is represented by its parsed ECMAScript time value
  (milliseconds since the epoch), since `new Date(s).getTime()` is the only
  way the code consumes it.
* Functions that can throw return `Except String _`; in particular Node's
  `crypto.timingSafeEqual` throws a `RangeError` when the two buffers have
  different byte lengths.
-/

set_option maxRecDepth 10000

/-! ## UTF-8 encoding (Node `Buffer.from(·, 'utf8')`) -/

def utf8EncodeChar (c : Char) : List Nat :=
  let n := c.toNat
  if n < 0x80 then [n]
  else if n < 0x800 then
    [0xC0 ||| (n >>> 6), 0x80 ||| (n &&& 0x3F)]
  else if n < 0x10000 then
    [0xE0 ||| (n >>> 12), 0x80 ||| ((n >>> 6) &&& 0x3F), 0x80 ||| (n &&& 0x3F)]
  else
    [0xF0 ||| (n >>> 18), 0x80 ||| ((n >>> 12) &&& 0x3F),
     0x80 ||| ((n >>> 6) &&& 0x3F), 0x80 ||| (n &&& 0x3F)]

def utf8Encode (s : String) : List Nat :=
  (s.data.map utf8EncodeChar).flatten

/-! ## SHA-256 (Node `crypto.createHmac('sha256', ·)` backend) -/

def M32 : Nat := 4294967296

def rotr32 (n x : Nat) : Nat :=
  ((x >>> n) ||| (x <<< (32 - n))) % M32

def not32 (x : Nat) : Nat := 0xFFFFFFFF ^^^ x

def bigSigma0 (x : Nat) : Nat := rotr32 2 x ^^^ rotr32 13 x ^^^ rotr32 22 x
def bigSigma1 (x : Nat) : Nat := rotr32 6 x ^^^ rotr32 11 x ^^^ rotr32 25 x
def smallSigma0 (x : Nat) : Nat := rotr32 7 x ^^^ rotr32 18 x ^^^ (x >>> 3)
def smallSigma1 (x : Nat) : Nat := rotr32 17 x ^^^ rotr32 19 x ^^^ (x >>> 10)

def chFn (x y z : Nat) : Nat := (x &&& y) ^^^ (not32 x &&& z)
def majFn (x y z : Nat) : Nat := (x &&& y) ^^^ (x &&& z) ^^^ (y &&& z)

def sha256K : List Nat :=
  [1116352408, 1899447441, 3049323471, 3921009573, 961987163,
   1508970993, 2453635748, 2870763221, 3624381080, 310598401,
   607225278, 1426881987, 1925078388, 2162078206, 2614888103,
   3248222580, 3835390401, 4022224774, 264347078, 604807628,
   770255983, 1249150122, 1555081692, 1996064986, 2554220882,
   2821834349, 2952996808, 3210313671, 3336571891, 3584528711,
   113926993, 338241895, 666307205, 773529912, 1294757372,
   1396182291, 1695183700, 1986661051, 2177026350, 2456956037,
   2730485921, 2820302411, 3259730800, 3345764771, 3516065817,
   3600352804, 4094571909, 275423344, 430227734, 506948616,
   659060556, 883997877, 958139571, 1322822218, 1537002063,
   1747873779, 1955562222, 2024104815, 2227730452, 2361852424,
   2428436474, 2756734187, 3204031479, 3329325298]

def sha256H0 : List Nat :=
  [1779033703, 3144134277, 1013904242, 2773480762,
   1359893119, 2600822924, 528734635, 1541459225]

/-- Append the SHA-256 padding to a byte list. -/
def sha256Pad (msg : List Nat) : List Nat :=
  let len := msg.length
  let bitLen := 8 * len
  let zeros := (119 - (len % 64)) % 64
  msg ++ [0x80] ++ List.replicate zeros 0 ++
    [(bitLen >>> 56) % 256, (bitLen >>> 48) % 256, (bitLen >>> 40) % 256,
     (bitLen >>> 32) % 256, (bitLen >>> 24) % 256, (bitLen >>> 16) % 256,
     (bitLen >>> 8) % 256, bitLen % 256]

/-- Big-endian 4-byte grouping of a byte list into 32-bit words. -/
def bytesToWords : List Nat → List Nat
  | b0 :: b1 :: b2 :: b3 :: rest =>
      (((b0 <<< 24) ||| (b1 <<< 16) ||| (b2 <<< 8) ||| b3) % M32) :: bytesToWords rest
  | _ => []

/-- Split a word list into 16-word blocks (the padded length is always a
multiple of 16 words). -/
def wordsToBlocks : List Nat → List (List Nat)
  | w0 :: w1 :: w2 :: w3 :: w4 :: w5 :: w6 :: w7 ::
    w8 :: w9 :: w10 :: w11 :: w12 :: w13 :: w14 :: w15 :: rest =>
      [w0, w1, w2, w3, w4, w5, w6, w7, w8, w9, w10, w11, w12, w13, w14, w15] ::
        wordsToBlocks rest
  | _ => []

/-- Extend a 16-word message block to the 64-word schedule. -/
def extendSchedule : List Nat → Nat → List Nat
  | w, 0 => w
  | w, n + 1 =>
      let l := w.length
      let nw := (smallSigma1 (w.getD (l - 2) 0) + w.getD (l - 7) 0 +
                 smallSigma0 (w.getD (l - 15) 0) + w.getD (l - 16) 0) % M32
      extendSchedule (w ++ [nw]) n

/-- One round of the SHA-256 compression function. -/
def sha256Round (w : List Nat) (st : List Nat) (t : Nat) : List Nat :=
  match st with
  | [a, b, c, d, e, f, g, h] =>
      let t1 := (h + bigSigma1 e + chFn e f g + sha256K.getD t 0 + w.getD t 0) % M32
      let t2 := (bigSigma0 a + majFn a b c) % M32
      [(t1 + t2) % M32, a, b, c, (d + t1) % M32, e, f, g]
  | other => other

/-- Process one 16-word block, updating the eight-word chaining state. -/
def sha256Block (hs : List Nat) (block : List Nat) : List Nat :=
  let w := extendSchedule block 48
  let st := (List.range 64).foldl (sha256Round w) hs
  (List.zip hs st).map (fun p => (p.1 + p.2) % M32)

def wordToBytes (x : Nat) : List Nat :=
  [(x >>> 24) % 256, (x >>> 16) % 256, (x >>> 8) % 256, x % 256]

/-- SHA-256 of a byte list, as 32 bytes. -/
def sha256 (msg : List Nat) : List Nat :=
  let blocks := wordsToBlocks (bytesToWords (sha256Pad msg))
  ((blocks.foldl sha256Block sha256H0).map wordToBytes).flatten

/-! ## HMAC-SHA256 and hex digests -/

def hexDigit (n : Nat) : Char :=
  if n < 10 then Char.ofNat (48 + n) else Char.ofNat (87 + n)

/-- Lowercase hex rendering of a byte list (Node `digest('hex')`). -/
def bytesToHex (bs : List Nat) : String :=
  String.mk ((bs.map (fun b => [hexDigit (b / 16), hexDigit (b % 16)])).flatten)

/-- HMAC-SHA256 over byte lists. -/
def hmacSha256 (key msg : List Nat) : List Nat :=
  let k0 := if key.length > 64 then sha256 key else key
  let k1 := k0 ++ List.replicate (64 - k0.length) 0
  let ipad := k1.map (fun b => b ^^^ 0x36)
  let opad := k1.map (fun b => b ^^^ 0x5c)
  sha256 (opad ++ sha256 (ipad ++ msg))

/-- `createHmac('sha256', secret).update(msg).digest('hex')`. -/
def hmacSha256Hex (secret msg : String) : String :=
  bytesToHex (hmacSha256 (utf8Encode secret) (utf8Encode msg))

/-! ## `crypto.timingSafeEqual` and `parseInt` -/

instance {ε α : Type} [DecidableEq ε] [DecidableEq α] : DecidableEq (Except ε α) :=
  fun a b =>
    match a, b with
    | .ok x, .ok y =>
        if h : x = y then isTrue (by subst h; rfl)
        else isFalse (fun hh => by cases hh; exact h rfl)
    | .error x, .error y =>
        if h : x = y then isTrue (by subst h; rfl)
        else isFalse (fun hh => by cases hh; exact h rfl)
    | .ok _, .error _ => isFalse (fun hh => by cases hh)
    | .error _, .ok _ => isFalse (fun hh => by cases hh)

/-- Node's `timingSafeEqual`: throws a `RangeError` when the byte lengths
differ, otherwise compares the bytes. -/
def timingSafeEqual (a b : List Nat) : Except String Bool :=
  if a.length = b.length then .ok (a = b)
  else .error "Input buffers must have the same byte length"

def isDecDigit (c : Char) : Bool := 48 ≤ c.toNat && c.toNat ≤ 57

def isJsWhitespace (c : Char) : Bool :=
  c = ' ' || c = '\t' || c = '\n' || c = '\r' || c.toNat = 11 || c.toNat = 12

def digitsToNat (ds : List Char) : Nat :=
  ds.foldl (fun acc c => 10 * acc + (c.toNat - 48)) 0

/-- JS `parseInt(s, 10)`: skip whitespace, optional sign, then the longest
decimal-digit prefix; `none` models `NaN`. -/
def parseIntDec (s : String) : Option Int :=
  let cs := s.data.dropWhile isJsWhitespace
  let signAndRest : (Int × List Char) :=
    match cs with
    | '-' :: rest => (-1, rest)
    | '+' :: rest => (1, rest)
    | rest => (1, rest)
  let digits := signAndRest.2.takeWhile isDecDigit
  if digits = [] then none
  else some (signAndRest.1 * (digitsToNat digits : Int))

/-! ## `verifySlackSignature` (identical logic in both variants) -/

def SIGNATURE_MAX_AGE_SECONDS : Nat := 300

/-- `verifySlackSignature` from `today.ts`. `nowMs` is `Date.now()`.
The JS comparison `timestampSeconds < cutoffTime` is false when
`parseInt` produced `NaN`, so a non-numeric timestamp falls through to
the HMAC comparison. The final `timingSafeEqual` can throw. -/
def verifySlackSignature (signingSecret signature timestamp body : String)
    (nowMs : Nat) : Except String Bool :=
  let cutoffTime : Int := (nowMs / 1000 : Nat) - (SIGNATURE_MAX_AGE_SECONDS : Int)
  let stale : Bool :=
    match parseIntDec timestamp with
    | some t => t < cutoffTime
    | none => false
  if stale then .ok false
  else
    let baseString := "v0:" ++ timestamp ++ ":" ++ body
    let expectedSignature := "v0=" ++ hmacSha256Hex signingSecret baseString
    timingSafeEqual (utf8Encode expectedSignature) (utf8Encode signature)

/-! ## Data model (types from `today.ts`) -/

def ALLOWED_USER_IDS : List String := ["U6AHGJPPZ"]

inductive DurationUnit
  | minute
  | day
deriving DecidableEq

structure TaskDuration where
  amount : Nat
  unit : DurationUnit
deriving DecidableEq

/-- The inline `due` object of `TodoistTask`. The `datetime` field is the
parsed ECMAScript time value of the upstream ISO string (the code only ever
consumes it through `new Date(datetime).getTime()` and
`toLocaleTimeString`). -/
structure TaskDue where
  date : String
  datetime : Option Int
  string : String
deriving DecidableEq

structure TodoistTask where
  id : String
  content : String
  description : String
  priority : Nat
  due : Option TaskDue
  duration : Option TaskDuration
  project_id : String
  labels : List String
  is_completed : Bool
deriving DecidableEq

structure BlockText where
  type : String
  text : String
  emoji : Option Bool
deriving DecidableEq

structure BlockElement where
  type : String
  text : String
deriving DecidableEq

structure SlackBlock where
  type : String
  text : Option BlockText
  elements : Option (List BlockElement)
deriving DecidableEq

structure SlackResponse where
  response_type : String
  blocks : Option (List SlackBlock)
  text : String
deriving DecidableEq

/-! ## Priority, duration and time rendering -/

def PRIORITY_LABELS : List (Nat × String) := [(4, "P1"), (3, "P2"), (2, "P3")]

/-- `PRIORITY_LABELS[priority] ?? ''`. -/
def getPriorityLabel (priority : Nat) : String :=
  (PRIORITY_LABELS.lookup priority).getD ""

/-- `getPriorityEmoji` from the second handler variant embedded in
`today.ts`. -/
def getPriorityEmoji (priority : Nat) : String :=
  if priority = 4 then "🔴"
  else if priority = 3 then "🟠"
  else if priority = 2 then "🔵"
  else "⚪"

def formatDuration : Option TaskDuration → String
  | none => ""
  | some d =>
    match d.unit with
    | .day => toString d.amount ++ "d"
    | .minute =>
      let hours := d.amount / 60
      let minutes := d.amount % 60
      if hours = 0 then toString minutes ++ "m"
      else if minutes = 0 then toString hours ++ "h"
      else toString hours ++ "h" ++ toString minutes ++ "m"

def pad2 (n : Nat) : String :=
  if n < 10 then "0" ++ toString n else toString n

/-- `toLocaleTimeString('en-GB', 2-digit/2-digit, hour12:false)` applied to a
time value: "HH:MM" in the ambient time zone, given as an offset in minutes
(the main variant formats in the host's local zone, so the offset is passed
in as ambient state). -/
def formatTime (tzOffsetMin : Int) (t : Int) : String :=
  let localMin : Int := Int.fdiv (t + tzOffsetMin * 60000) 60000
  let hh := (Int.fdiv localMin 60).emod 24
  let mm := localMin.emod 60
  pad2 hh.toNat ++ ":" ++ pad2 mm.toNat

/-! ## Sorting -/

def MAX_SAFE_INTEGER : Int := 9007199254740991

def getTaskSortKey (task : TodoistTask) : Int :=
  match task.due with
  | some d =>
    match d.datetime with
    | some ts => ts
    | none => MAX_SAFE_INTEGER
  | none => MAX_SAFE_INTEGER

/-- The comparator `(a, b) => getTaskSortKey(a) - getTaskSortKey(b)` orders
`a` no later than `b` exactly when the difference is non-positive. -/
def taskLe (a b : TodoistTask) : Bool :=
  getTaskSortKey a ≤ getTaskSortKey b

/-- `[...tasks].sort((a, b) => getTaskSortKey(a) - getTaskSortKey(b))`:
JS `Array.prototype.sort` is a stable sort, embedded as the (unique) stable
sort by the comparator's ordering. -/
def sortTasksBySchedule (tasks : List TodoistTask) : List TodoistTask :=
  tasks.mergeSort taskLe

/-- Truthiness of `task.due?.datetime`. -/
def hasDatetime (task : TodoistTask) : Bool :=
  match task.due with
  | some d => d.datetime.isSome
  | none => false

/-! ## Per-task line rendering (main variant) -/

def formatScheduledTask (tzOffsetMin : Int) (task : TodoistTask) : String :=
  let time :=
    match task.due with
    | some d =>
      match d.datetime with
      | some ts => formatTime tzOffsetMin ts
      | none => ""
    | none => ""
  let duration := formatDuration task.duration
  let priority := getPriorityLabel task.priority
  let meta := (if duration = "" then [] else [duration]) ++
              (if priority = "" then [] else [priority])
  let metaStr :=
    if meta.length > 0 then " — _" ++ String.intercalate " · " meta ++ "_" else ""
  "`" ++ time ++ "` " ++ task.content ++ metaStr

def formatUnscheduledTask (task : TodoistTask) : String :=
  let duration := formatDuration task.duration
  let priority := getPriorityLabel task.priority
  let meta := (if duration = "" then [] else [duration]) ++
              (if priority = "" then [] else [priority])
  let metaStr :=
    if meta.length > 0 then " — _" ++ String.intercalate " · " meta ++ "_" else ""
  "• " ++ task.content ++ metaStr

/-! ## Message assembly (main variant) -/

def formatTasksForSlack (tzOffsetMin : Int) (tasks : List TodoistTask) : SlackResponse :=
  if tasks.length = 0 then
    { response_type := "ephemeral",
      text := "No tasks for today!",
      blocks := some
        [{ type := "section",
           text := some
             { type := "mrkdwn",
               text := "*No tasks for today!*\nEnjoy your free time or add some tasks in Todoist.",
               emoji := none },
           elements := none }] }
  else
    let sortedTasks := sortTasksBySchedule tasks
    let scheduled := sortedTasks.filter hasDatetime
    let unscheduled := sortedTasks.filter (fun t => !hasDatetime t)
    let header : SlackBlock :=
      { type := "section",
        text := some
          { type := "mrkdwn",
            text := "📋 *Today's Tasks* (" ++ toString tasks.length ++ ")",
            emoji := none },
        elements := none }
    let scheduledBlocks : List SlackBlock :=
      if scheduled.length > 0 then
        [{ type := "section",
           text := some
             { type := "mrkdwn",
               text := String.intercalate "\n" (scheduled.map (formatScheduledTask tzOffsetMin)),
               emoji := none },
           elements := none }]
      else []
    let unscheduledBlocks : List SlackBlock :=
      if unscheduled.length > 0 then
        (if scheduled.length > 0 then
          [{ type := "divider", text := none, elements := none }]
         else []) ++
        [{ type := "section",
           text := some
             { type := "mrkdwn",
               text := "_Anytime_\n" ++
                 String.intercalate "\n" (unscheduled.map formatUnscheduledTask),
               emoji := none },
           elements := none }]
      else []
    let contextBlock : SlackBlock :=
      { type := "context", text := none,
        elements := some [{ type := "mrkdwn", text := "_Fetched from Todoist_" }] }
    let blocks := header :: (scheduledBlocks ++ unscheduledBlocks ++ [contextBlock])
    let allLines := scheduled.map (formatScheduledTask tzOffsetMin) ++
                    unscheduled.map formatUnscheduledTask
    { response_type := "ephemeral",
      blocks := some blocks,
      text := "Today's Tasks (" ++ toString tasks.length ++ "): " ++
              String.intercalate ", " allLines }

/-! ## Request body decoding (`URLSearchParams`, base64) -/

def hexVal (c : Char) : Option Nat :=
  if 48 ≤ c.toNat && c.toNat ≤ 57 then some (c.toNat - 48)
  else if 97 ≤ c.toNat && c.toNat ≤ 102 then some (c.toNat - 87)
  else if 65 ≤ c.toNat && c.toNat ≤ 70 then some (c.toNat - 55)
  else none

/-- UTF-8 decoding of a byte list, with U+FFFD for malformed sequences
(the WHATWG decoder used by `URLSearchParams` and `Buffer.toString`).
Fuel-indexed so the kernel can evaluate it. -/
def utf8DecodeAux : Nat → List Nat → List Char
  | 0, _ => []
  | _, [] => []
  | fuel + 1, b :: rest =>
    if b < 0x80 then Char.ofNat b :: utf8DecodeAux fuel rest
    else if b < 0xC0 then '�' :: utf8DecodeAux fuel rest
    else if b < 0xE0 then
      match rest with
      | b1 :: rest2 =>
        if 0x80 ≤ b1 && b1 < 0xC0 then
          Char.ofNat (((b - 0xC0) <<< 6) ||| (b1 - 0x80)) :: utf8DecodeAux fuel rest2
        else '�' :: utf8DecodeAux fuel rest
      | [] => ['�']
    else if b < 0xF0 then
      match rest with
      | b1 :: b2 :: rest2 =>
        if (0x80 ≤ b1 && b1 < 0xC0) && (0x80 ≤ b2 && b2 < 0xC0) then
          Char.ofNat (((b - 0xE0) <<< 12) ||| ((b1 - 0x80) <<< 6) ||| (b2 - 0x80)) ::
            utf8DecodeAux fuel rest2
        else '�' :: utf8DecodeAux fuel rest
      | _ => ['�']
    else
      match rest with
      | b1 :: b2 :: b3 :: rest2 =>
        if (0x80 ≤ b1 && b1 < 0xC0) && (0x80 ≤ b2 && b2 < 0xC0) &&
           (0x80 ≤ b3 && b3 < 0xC0) then
          Char.ofNat (((b - 0xF0) <<< 18) ||| ((b1 - 0x80) <<< 12) |||
                      ((b2 - 0x80) <<< 6) ||| (b3 - 0x80)) :: utf8DecodeAux fuel rest2
        else '�' :: utf8DecodeAux fuel rest
      | _ => ['�']

def utf8Decode (bs : List Nat) : List Char :=
  utf8DecodeAux bs.length bs

/-- `application/x-www-form-urlencoded` decoding of one component: `+` is a
space, `%XX` is a byte, anything else passes through; the resulting bytes are
UTF-8 decoded. -/
def percentDecodeBytes : Nat → List Char → List Nat
  | 0, _ => []
  | _, [] => []
  | fuel + 1, '%' :: h1 :: h2 :: rest =>
    match hexVal h1, hexVal h2 with
    | some a, some b => (16 * a + b) :: percentDecodeBytes fuel rest
    | _, _ => utf8EncodeChar '%' ++ percentDecodeBytes fuel (h1 :: h2 :: rest)
  | fuel + 1, '+' :: rest => 32 :: percentDecodeBytes fuel rest
  | fuel + 1, c :: rest => utf8EncodeChar c ++ percentDecodeBytes fuel rest

def urlDecode (s : String) : String :=
  String.mk (utf8Decode (percentDecodeBytes s.data.length s.data))

/-- Split a character list on a separator character (JS `String.split`). -/
def splitOnChar (sep : Char) : List Char → List (List Char)
  | [] => [[]]
  | c :: rest =>
    match splitOnChar sep rest with
    | [] => if c = sep then [[], []] else [[c]]
    | cur :: others => if c = sep then [] :: cur :: others else (c :: cur) :: others

/-- Split a character list at the first `=`, if any. -/
def splitFirstEq : List Char → (List Char × Option (List Char))
  | [] => ([], none)
  | c :: rest =>
    if c = '=' then ([], some rest)
    else
      match splitFirstEq rest with
      | (k, v) => (c :: k, v)

/-- `Object.fromEntries(new URLSearchParams(body))`: split on `&` (empty
segments yield no pair), split each pair at the first `=` (no `=` means an
empty value), decode both sides. `Object.fromEntries` keeps the last value
for a repeated key, so lookups below take the last match. -/
def parseSlackBody (body : String) : List (String × String) :=
  ((splitOnChar '&' body.data).filter (fun seg => seg ≠ [])).map fun pair =>
    match splitFirstEq pair with
    | (k, none) => (urlDecode (String.mk k), "")
    | (k, some v) => (urlDecode (String.mk k), urlDecode (String.mk v))

/-- JS object field access after `Object.fromEntries`: the last entry with
the key wins; `none` models `undefined`. -/
def lookupParam (params : List (String × String)) (key : String) : Option String :=
  ((params.filter (fun p => p.1 = key)).getLast?).map (fun p => p.2)

def base64Val (c : Char) : Option Nat :=
  if 65 ≤ c.toNat && c.toNat ≤ 90 then some (c.toNat - 65)
  else if 97 ≤ c.toNat && c.toNat ≤ 122 then some (c.toNat - 71)
  else if 48 ≤ c.toNat && c.toNat ≤ 57 then some (c.toNat + 4)
  else if c = '+' then some 62
  else if c = '/' then some 63
  else none

/-- Groups of four 6-bit values to three bytes; a trailing group of two or
three values yields one or two bytes (Node's lenient base64 decoding, after
dropping non-alphabet characters and `=`). -/
def base64Groups : List Nat → List Nat
  | a :: b :: c :: d :: rest =>
      ((a <<< 2) ||| (b >>> 4)) :: (((b &&& 0xF) <<< 4) ||| (c >>> 2)) % 256 ::
        (((c &&& 0x3) <<< 6) ||| d) :: base64Groups rest
  | [a, b] => [(a <<< 2) ||| (b >>> 4)]
  | [a, b, c] => [(a <<< 2) ||| (b >>> 4), (((b &&& 0xF) <<< 4) ||| (c >>> 2)) % 256]
  | _ => []

/-- `Buffer.from(body, 'base64').toString('utf-8')`. -/
def base64DecodeUtf8 (s : String) : String :=
  String.mk (utf8Decode (base64Groups (s.data.filterMap base64Val)))

/-! ## Response envelope and handler (main variant) -/

/-- The value handed to `JSON.stringify` in a response: either a bare
`{ text }` object or a full Slack response. Serialization itself is not
modelled; the body is kept structured. -/
inductive ResponseBody
  | textOnly (text : String)
  | slack (r : SlackResponse)
deriving DecidableEq

structure APIGatewayResult where
  statusCode : Nat
  headers : List (String × String)
  body : ResponseBody
deriving DecidableEq

def jsonResponse (statusCode : Nat) (body : ResponseBody) : APIGatewayResult :=
  { statusCode := statusCode,
    headers := [("Content-Type", "application/json")],
    body := body }

def slackErrorResponse (text : String) : APIGatewayResult :=
  jsonResponse 200 (.slack { response_type := "ephemeral", blocks := none, text := text })

structure APIGatewayEvent where
  headers : List (String × String)
  body : Option String
  isBase64Encoded : Bool
deriving DecidableEq

def getRequestBody (event : APIGatewayEvent) : String :=
  let body := event.body.getD ""
  if event.isBase64Encoded && body ≠ "" then base64DecodeUtf8 body else body

/-- `process.env`; a missing variable is `none`, and JS truthiness makes the
empty string count as missing too. -/
structure Env where
  TODOIST_API_TOKEN : Option String
  SLACK_SIGNING_SECRET : Option String
deriving DecidableEq

def isFalsyStr : Option String → Bool
  | none => true
  | some s => s = ""

/-- `ALLOWED_USER_IDS.includes(userId)` where `userId` may be `undefined`
(a missing `user_id` field never matches the allow-list). -/
def isAllowedUser : Option String → Bool
  | some u => ALLOWED_USER_IDS.contains u
  | none => false

/-- The exported `handler` of the main variant. Ambient effects are passed
explicitly: `nowMs` is `Date.now()`, `tzOffsetMin` the host time zone, and
`fetchResult` the outcome of `fetchTodayTasks` (`Except.error` models a
rejected fetch or a non-ok upstream status). A top-level `.error` is an
uncaught exception escaping the handler: only the task fetch is inside the
`try`, so `verifySlackSignature` throwing propagates out. -/
def handler (env : Env) (event : APIGatewayEvent) (nowMs : Nat) (tzOffsetMin : Int)
    (fetchResult : Except String (List TodoistTask)) : Except String APIGatewayResult :=
  if isFalsyStr env.TODOIST_API_TOKEN || isFalsyStr env.SLACK_SIGNING_SECRET then
    .ok (jsonResponse 500 (.textOnly "Server configuration error"))
  else
    let slackSigningSecret := env.SLACK_SIGNING_SECRET.getD ""
    let signature := (event.headers.lookup "x-slack-signature").getD ""
    let timestamp := (event.headers.lookup "x-slack-request-timestamp").getD ""
    let body := getRequestBody event
    match verifySlackSignature slackSigningSecret signature timestamp body nowMs with
    | .error e => .error e
    | .ok false => .ok (jsonResponse 401 (.textOnly "Invalid request signature"))
    | .ok true =>
      let slackParams := parseSlackBody body
      let userId := lookupParam slackParams "user_id"
      if !(isAllowedUser userId) then
        .ok (slackErrorResponse
          "🔒 This is a test app by Anil. Please reach out to anil@beneathatree.com if you need access.")
      else
        match fetchResult with
        | .ok tasks => .ok (jsonResponse 200 (.slack (formatTasksForSlack tzOffsetMin tasks)))
        | .error _ => .ok (slackErrorResponse
            "Sorry, there was an error fetching your tasks. Please try again later.")

/-! ## The completed-tasks variant (`src/unnamed/part_000`) -/

namespace Part000

structure CompletedTaskItem where
  due : Option TaskDue
  duration : Option TaskDuration
  priority : Nat
deriving DecidableEq

/-- A record of the sync API's `completed/get_all` endpoint. `completed_at`
is the parsed time value of the upstream timestamp string. -/
structure CompletedTask where
  id : String
  task_id : String
  content : String
  project_id : String
  completed_at : Int
  item_object : Option CompletedTaskItem
deriving DecidableEq

structure TodoistProject where
  id : String
  name : String
deriving DecidableEq

/-- This variant's `formatTime` pins `timeZone: 'Asia/Kolkata'` (UTC+5:30,
no DST). -/
def IST_OFFSET_MIN : Int := 330

def formatTime (t : Int) : String :=
  let localMin : Int := Int.fdiv (t + IST_OFFSET_MIN * 60000) 60000
  let hh := (Int.fdiv localMin 60).emod 24
  let mm := localMin.emod 60
  pad2 hh.toNat ++ ":" ++ pad2 mm.toNat

/-- JS `\w`. -/
def isWordChar (c : Char) : Bool :=
  (65 ≤ c.toNat && c.toNat ≤ 90) || (97 ≤ c.toNat && c.toNat ≤ 122) ||
  (48 ≤ c.toNat && c.toNat ≤ 57) || c = '_'

/-- `content.replace(/@\w+/g, '')`: drop `@` followed by at least one word
character, together with the word characters. -/
def stripAts : Nat → List Char → List Char
  | 0, _ => []
  | _, [] => []
  | fuel + 1, '@' :: rest =>
    match rest with
    | c :: _ =>
      if isWordChar c then stripAts fuel (rest.dropWhile isWordChar)
      else '@' :: stripAts fuel rest
    | [] => ['@']
  | fuel + 1, c :: rest => c :: stripAts fuel rest

/-- `.replace(/\s+/g, ' ')`. -/
def collapseWs : Nat → List Char → List Char
  | 0, _ => []
  | _, [] => []
  | fuel + 1, c :: rest =>
    if isJsWhitespace c then ' ' :: collapseWs fuel (rest.dropWhile isJsWhitespace)
    else c :: collapseWs fuel rest

def trimChars (l : List Char) : List Char :=
  ((l.dropWhile isJsWhitespace).reverse.dropWhile isJsWhitespace).reverse

def stripLabels (content : String) : String :=
  let noAts := stripAts content.data.length content.data
  let collapsed := collapseWs noAts.length noAts
  String.mk (trimChars collapsed)

def formatActiveTask (task : TodoistTask) (index : Nat) : String :=
  let time :=
    match task.due with
    | some d =>
      match d.datetime with
      | some ts => "`" ++ formatTime ts ++ "` "
      | none => ""
    | none => ""
  let duration := formatDuration task.duration
  let priority := getPriorityLabel task.priority
  let content := stripLabels task.content
  let meta := (if duration = "" then [] else [duration]) ++
              (if priority = "" then [] else [priority])
  let metaStr :=
    if meta.length > 0 then " — _" ++ String.intercalate " · " meta ++ "_" else ""
  toString (index + 1) ++ ". " ++ time ++ content ++ metaStr

def formatCompletedTask (task : CompletedTask) (index : Nat) : String :=
  let completedTime := formatTime task.completed_at
  let content := stripLabels task.content
  toString (index + 1) ++ ". ~" ++ content ++ "~ — _done " ++ completedTime ++ "_"

structure TasksData where
  active : List TodoistTask
  completed : List CompletedTask
deriving DecidableEq

def formatTasksForSlack (data : TasksData) : SlackResponse :=
  let active := data.active
  let completed := data.completed
  let totalActive := active.length
  let totalCompleted := completed.length
  if totalActive = 0 && totalCompleted = 0 then
    { response_type := "ephemeral",
      text := "No tasks for today!",
      blocks := some
        [{ type := "section",
           text := some
             { type := "mrkdwn",
               text := "*No tasks for today!*\nEnjoy your free time or add some tasks in Todoist.",
               emoji := none },
           elements := none }] }
  else
    let sortedTasks := sortTasksBySchedule active
    let scheduled := sortedTasks.filter hasDatetime
    let unscheduled := sortedTasks.filter (fun t => !hasDatetime t)
    let headerParts :=
      (if totalActive > 0 then [toString totalActive ++ " pending"] else []) ++
      (if totalCompleted > 0 then [toString totalCompleted ++ " done"] else [])
    let header : SlackBlock :=
      { type := "section",
        text := some
          { type := "mrkdwn",
            text := "📋 *Today's Tasks* (" ++ String.intercalate ", " headerParts ++ ")",
            emoji := none },
        elements := none }
    let allActive := scheduled ++ unscheduled
    let activeBlocks : List SlackBlock :=
      if totalActive > 0 then
        [{ type := "section",
           text := some
             { type := "mrkdwn",
               text := String.intercalate "\n"
                 (allActive.mapIdx (fun i task => formatActiveTask task i)),
               emoji := none },
           elements := none }]
      else []
    let completedBlocks : List SlackBlock :=
      if completed.length > 0 then
        (if totalActive > 0 then
          [{ type := "divider", text := none, elements := none }]
         else []) ++
        [{ type := "section",
           text := some
             { type := "mrkdwn",
               text := String.intercalate "\n"
                 (completed.mapIdx (fun i task => formatCompletedTask task i)),
               emoji := none },
           elements := none }]
      else []
    let contextBlock : SlackBlock :=
      { type := "context", text := none,
        elements := some [{ type := "mrkdwn", text := "_Fetched from Todoist_" }] }
    let blocks := header :: (activeBlocks ++ completedBlocks ++ [contextBlock])
    { response_type := "ephemeral",
      blocks := some blocks,
      text := "Today's Tasks (" ++ toString totalActive ++ " pending, " ++
              toString totalCompleted ++ " done): " ++
              String.intercalate ", " (allActive.map (fun t => t.content)) }

/-- `fetchWorkProjectId`: resolve the project named "Work" from the
`/projects` response; `projectsResult` is the outcome of that HTTP call. -/
def fetchWorkProjectId (projectsResult : Except String (List TodoistProject)) :
    Except String (Option String) :=
  match projectsResult with
  | .error e => .error e
  | .ok projects => .ok (((projects.find? (fun p => p.name = "Work")).map
      (fun p => p.id)))

/-- `fetchCompletedTodayTasks`: with a null project id it returns `[]` before
building the request URL or calling `fetch`; otherwise `completedResult` is
the outcome of the `completed/get_all` call (already projected to `.items`).
The `since`/`until`/`project_id` query parameters only shape the request URL
and are absorbed into the oracle. -/
def fetchCompletedTodayTasks (projectId : Option String)
    (completedResult : Except String (List CompletedTask)) :
    Except String (List CompletedTask) :=
  match projectId with
  | none => .ok []
  | some _ => completedResult

/-- The exported `handler` of this variant: resolves the Work project id,
then awaits the active and completed fetches; any rejection lands in the
`catch`. -/
def handler (env : Env) (event : APIGatewayEvent) (nowMs : Nat)
    (projectsResult : Except String (List TodoistProject))
    (tasksResult : Except String (List TodoistTask))
    (completedResult : Except String (List CompletedTask)) :
    Except String APIGatewayResult :=
  if isFalsyStr env.TODOIST_API_TOKEN || isFalsyStr env.SLACK_SIGNING_SECRET then
    .ok (jsonResponse 500 (.textOnly "Server configuration error"))
  else
    let slackSigningSecret := env.SLACK_SIGNING_SECRET.getD ""
    let signature := (event.headers.lookup "x-slack-signature").getD ""
    let timestamp := (event.headers.lookup "x-slack-request-timestamp").getD ""
    let body := getRequestBody event
    match verifySlackSignature slackSigningSecret signature timestamp body nowMs with
    | .error e => .error e
    | .ok false => .ok (jsonResponse 401 (.textOnly "Invalid request signature"))
    | .ok true =>
      let slackParams := parseSlackBody body
      let userId := lookupParam slackParams "user_id"
      if !(isAllowedUser userId) then
        .ok (slackErrorResponse
          "🔒 This is a test app by Anil. Please reach out to anil@beneathatree.com if you need access.")
      else
        match fetchWorkProjectId projectsResult with
        | .error _ => .ok (slackErrorResponse
            "Sorry, there was an error fetching your tasks. Please try again later.")
        | .ok workProjectId =>
          match tasksResult, fetchCompletedTodayTasks workProjectId completedResult with
          | .ok active, .ok completed =>
            .ok (jsonResponse 200 (.slack (formatTasksForSlack
              { active := active, completed := completed })))
          | _, _ => .ok (slackErrorResponse
              "Sorry, there was an error fetching your tasks. Please try again later.")

end Part000

/-! ## Claim theorems -/

/-- Claim C7: with no tasks at all, both formatters return the fixed
"no tasks for today" message with one (hence a non-empty list of) block,
independent of the ambient time zone, and the two variants agree on it. -/
theorem zero_tasks_gives_celebration_message (tzOffsetMin : Int) :
    (formatTasksForSlack tzOffsetMin []).text = "No tasks for today!" ∧
    (formatTasksForSlack tzOffsetMin []).blocks =
      some [{ type := "section",
              text := some
                { type := "mrkdwn",
                  text := "*No tasks for today!*\nEnjoy your free time or add some tasks in Todoist.",
                  emoji := none },
              elements := none }] ∧
    (formatTasksForSlack tzOffsetMin []).blocks ≠ some [] ∧
    Part000.formatTasksForSlack { active := [], completed := [] } =
      formatTasksForSlack tzOffsetMin [] :=
  ⟨rfl, rfl, by simp [formatTasksForSlack], rfl⟩

/-- Claim C8: duration rendering. Day amounts render as "{amount}d"; minute
amounts are split into hours and minutes with a zero component omitted
(a zero-hour amount keeps its minute part, even the literal "0m" for zero);
in particular 90 minutes is "1h30m", 60 minutes is "1h" with no trailing
"0m", and 2 days is "2d". -/
theorem formatDuration_spec :
    formatDuration (some { amount := 90, unit := .minute }) = "1h30m" ∧
    formatDuration (some { amount := 60, unit := .minute }) = "1h" ∧
    formatDuration (some { amount := 2, unit := .day }) = "2d" ∧
    (∀ a : Nat, formatDuration (some { amount := a, unit := .day }) = toString a ++ "d") ∧
    (∀ a : Nat, formatDuration (some { amount := a, unit := .minute }) =
      if a / 60 = 0 then toString (a % 60) ++ "m"
      else if a % 60 = 0 then toString (a / 60) ++ "h"
      else toString (a / 60) ++ "h" ++ toString (a % 60) ++ "m") :=
  ⟨by decide, by decide, by decide, fun a => rfl, fun a => rfl⟩

/-- Claim C6, counterexample: the emoji renderer does render a label for a
priority value outside the lookup table — the neutral white circle —
so "no priority label at all" fails for ordinal 1. -/
theorem getPriorityEmoji_one_renders_marker :
    getPriorityEmoji 1 = "⚪" ∧ getPriorityEmoji 1 ≠ "" := by
  constructor
  · rfl
  · decide

/-- Claim C6 as amended: `getPriorityLabel` maps 4/3/2 to "P1"/"P2"/"P3" via
the `PRIORITY_LABELS` table and renders nothing for any other value, while
`getPriorityEmoji` maps 4/3/2 to the red/orange/blue markers and renders the
neutral white circle (not an empty label) for every other value. -/
theorem priority_rendering_table (p : Nat) :
    getPriorityLabel 4 = "P1" ∧ getPriorityLabel 3 = "P2" ∧ getPriorityLabel 2 = "P3" ∧
    getPriorityLabel p =
      (if p = 4 then "P1" else if p = 3 then "P2" else if p = 2 then "P3" else "") ∧
    getPriorityEmoji p =
      (if p = 4 then "🔴" else if p = 3 then "🟠" else if p = 2 then "🔵" else "⚪") := by
  refine ⟨rfl, rfl, rfl, ?_, ?_⟩
  · by_cases h4 : p = 4
    · subst h4; rfl
    · by_cases h3 : p = 3
      · subst h3; rfl
      · by_cases h2 : p = 2
        · subst h2; rfl
        · have hb4 : (p == 4) = false := by simp [h4]
          have hb3 : (p == 3) = false := by simp [h3]
          have hb2 : (p == 2) = false := by simp [h2]
          simp [getPriorityLabel, PRIORITY_LABELS, List.lookup, hb4, hb3, hb2, h4, h3, h2]
  · by_cases h4 : p = 4 <;> by_cases h3 : p = 3 <;> by_cases h2 : p = 2 <;>
      simp [getPriorityEmoji, h4, h3, h2]

/-- Claim C1: the code does not return "not equal" on a length mismatch.
At a fresh timestamp with a supplied signature of the wrong byte length
(here the empty string, 0 bytes, against the 67-byte expected
"v0="-prefixed hex HMAC), `timingSafeEqual` throws a `RangeError`
instead of returning `false`, and nothing catches it. -/
theorem verify_throws_on_length_mismatch :
    (utf8Encode ("v0=" ++ hmacSha256Hex "s" "v0:100000:b")).length = 67 ∧
    (utf8Encode "").length = 0 ∧
    verifySlackSignature "s" "" "100000" "b" 0 =
      .error "Input buffers must have the same byte length" := by
  refine ⟨by decide, by decide, by decide⟩

/-- Claim C2: a non-numeric timestamp does not make the verifier return
false. `parseInt` yields `NaN`, the JS comparison `NaN < cutoff` is false, so
the freshness check is skipped and the verifier proceeds to the HMAC
comparison — accepting a matching signature even at a verification time
(`nowMs` ≈ 2001-09) where every numeric timestamp this old would be stale. -/
theorem verify_accepts_matching_signature_on_nan_timestamp :
    parseIntDec "xyz" = none ∧
    verifySlackSignature "s" ("v0=" ++ hmacSha256Hex "s" "v0:xyz:b") "xyz" "b"
      999999999999 = .ok true := by
  refine ⟨by decide, by decide⟩

/-! ## Sorting lemmas (claim C4) -/

/-- ECMAScript time values are bounded by ±8.64e15, so every `datetime` a JS
`Date` can actually produce keeps the sort key strictly below the
`Number.MAX_SAFE_INTEGER` sentinel. -/
def validTimeValue (task : TodoistTask) : Bool :=
  match task.due with
  | some d =>
    match d.datetime with
    | some ts => ts.natAbs ≤ 8640000000000000
    | none => true
  | none => true

theorem taskLe_iff {a b : TodoistTask} :
    taskLe a b = true ↔ getTaskSortKey a ≤ getTaskSortKey b := by
  simp [taskLe]

theorem taskLe_trans : ∀ a b c : TodoistTask,
    taskLe a b → taskLe b c → taskLe a c := by
  intro a b c hab hbc
  exact taskLe_iff.mpr (le_trans (taskLe_iff.mp hab) (taskLe_iff.mp hbc))

theorem taskLe_total : ∀ a b : TodoistTask, taskLe a b || taskLe b a := by
  intro a b
  rcases le_total (getTaskSortKey a) (getTaskSortKey b) with h | h
  · simp [taskLe_iff.mpr h]
  · simp [taskLe_iff.mpr h]

theorem sortKey_of_no_datetime {t : TodoistTask} (h : hasDatetime t = false) :
    getTaskSortKey t = MAX_SAFE_INTEGER := by
  cases hdue : t.due with
  | none => simp [getTaskSortKey, hdue]
  | some d =>
    cases hdt : d.datetime with
    | none => simp [getTaskSortKey, hdue, hdt]
    | some ts => simp [hasDatetime, hdue, hdt] at h

theorem sortKey_lt_sentinel {t : TodoistTask} (hd : hasDatetime t = true)
    (hv : validTimeValue t = true) : getTaskSortKey t < MAX_SAFE_INTEGER := by
  cases hdue : t.due with
  | none => simp [hasDatetime, hdue] at hd
  | some d =>
    cases hdt : d.datetime with
    | none => simp [hasDatetime, hdue, hdt] at hd
    | some ts =>
      have hv2 : ts.natAbs ≤ 8640000000000000 := by
        simpa [validTimeValue, hdue, hdt] using hv
      simp only [getTaskSortKey, hdue, hdt, MAX_SAFE_INTEGER]
      omega

/-- Claim C4: the sort is total and stable. The output is a permutation of
the input, its sort keys are non-decreasing (so tasks with a due time appear
in non-decreasing due order), no task without a due time precedes one with a
due time (given that all due times are representable ECMAScript time
values), and for every key value the tasks with that key keep exactly their
upstream relative order — in particular all tasks without a due time do. -/
theorem sortTasksBySchedule_stable_and_total (tasks : List TodoistTask)
    (hvalid : ∀ t ∈ tasks, validTimeValue t = true) :
    List.Perm (sortTasksBySchedule tasks) tasks ∧
    (sortTasksBySchedule tasks).Pairwise
      (fun a b => getTaskSortKey a ≤ getTaskSortKey b) ∧
    (sortTasksBySchedule tasks).Pairwise
      (fun a b => hasDatetime b = true → hasDatetime a = true) ∧
    (∀ k : Int,
      (sortTasksBySchedule tasks).filter (fun t => getTaskSortKey t == k) =
        tasks.filter (fun t => getTaskSortKey t == k)) := by
  have hsorted := List.sorted_mergeSort taskLe_trans taskLe_total tasks
  have hperm : List.Perm (sortTasksBySchedule tasks) tasks :=
    List.mergeSort_perm tasks taskLe
  refine ⟨hperm, ?_, ?_, ?_⟩
  · exact List.Pairwise.imp (fun h => taskLe_iff.mp h) hsorted
  · refine List.Pairwise.imp_of_mem ?_ hsorted
    intro a b ha hb hab hbtime
    have hav : validTimeValue a = true :=
      hvalid a (by simpa [sortTasksBySchedule] using ha)
    have hbv : validTimeValue b = true :=
      hvalid b (by simpa [sortTasksBySchedule] using hb)
    by_contra hnot
    have hafalse : hasDatetime a = false := by
      cases h : hasDatetime a with
      | false => rfl
      | true => exact absurd h hnot
    have h1 : getTaskSortKey a = MAX_SAFE_INTEGER := sortKey_of_no_datetime hafalse
    have h2 : getTaskSortKey b < MAX_SAFE_INTEGER := sortKey_lt_sentinel hbtime hbv
    have h3 := taskLe_iff.mp hab
    omega
  · intro k
    set p : TodoistTask → Bool := fun t => getTaskSortKey t == k with hp
    have hkeys : ∀ x ∈ tasks.filter p, ∀ y ∈ tasks.filter p, taskLe x y := by
      intro x hx y hy
      have hxk : getTaskSortKey x = k := by
        have := (List.mem_filter.mp hx).2
        simpa [hp] using this
      have hyk : getTaskSortKey y = k := by
        have := (List.mem_filter.mp hy).2
        simpa [hp] using this
      exact taskLe_iff.mpr (by rw [hxk, hyk])
    have hpw : (tasks.filter p).Pairwise (fun a b => taskLe a b = true) :=
      List.pairwise_of_forall_mem_list hkeys
    have hsub : List.Sublist (tasks.filter p) (sortTasksBySchedule tasks) :=
      List.sublist_mergeSort taskLe_trans taskLe_total hpw (List.filter_sublist tasks)
    have hself : (tasks.filter p).filter p = tasks.filter p :=
      List.filter_eq_self.mpr (fun a ha => (List.mem_filter.mp ha).2)
    have hsub2 : List.Sublist (tasks.filter p) ((sortTasksBySchedule tasks).filter p) := by
      have := hsub.filter p
      rwa [hself] at this
    have hpermf : List.Perm ((sortTasksBySchedule tasks).filter p) (tasks.filter p) :=
      hperm.filter p
    exact (hsub2.eq_of_length hpermf.length_eq.symm).symm

/-! ## Handler claims (C3, C9, C10) -/

/-- An event carrying a correctly signed body (the signature header holds the
HMAC the verifier recomputes). -/
def signedEvent (secret ts body : String) : APIGatewayEvent :=
  { headers := [("x-slack-signature", "v0=" ++ hmacSha256Hex secret ("v0:" ++ ts ++ ":" ++ body)),
                ("x-slack-request-timestamp", ts)],
    body := some body,
    isBase64Encoded := false }

/-- An event whose signature header is well-formed (67 bytes) but wrong. -/
def wrongSigEvent : APIGatewayEvent :=
  { headers := [("x-slack-signature", "v0=" ++ String.mk (List.replicate 64 '0')),
                ("x-slack-request-timestamp", "100000")],
    body := some "user_id=U6AHGJPPZ",
    isBase64Encoded := false }

/-- Claim C3, counterexample: a bad (wrong but well-formed 67-byte)
signature is mapped to HTTP 401 — not to a success (2xx) status code as the
claim states. -/
theorem bad_signature_maps_to_401 :
    handler { TODOIST_API_TOKEN := some "t", SLACK_SIGNING_SECRET := some "s" }
      wrongSigEvent 0 0 (.ok []) =
      .ok (jsonResponse 401 (.textOnly "Invalid request signature")) ∧
    ¬ (200 ≤ 401 ∧ 401 ≤ 299) := by
  exact ⟨by decide, by decide⟩

/-- Claim C3 as amended: a missing (or empty) required secret maps to 500;
an invalid signature maps to 401 with body text "Invalid request signature";
an unauthorized caller and an upstream fetch failure map to 200 with an
error message carried in the body. -/
theorem handler_status_mapping :
    (∀ (env : Env) (event : APIGatewayEvent) (nowMs : Nat) (tzOffsetMin : Int)
        (fetchResult : Except String (List TodoistTask)),
      (isFalsyStr env.TODOIST_API_TOKEN || isFalsyStr env.SLACK_SIGNING_SECRET) = true →
      handler env event nowMs tzOffsetMin fetchResult =
        .ok (jsonResponse 500 (.textOnly "Server configuration error"))) ∧
    (∀ (env : Env) (event : APIGatewayEvent) (nowMs : Nat) (tzOffsetMin : Int)
        (fetchResult : Except String (List TodoistTask)),
      (isFalsyStr env.TODOIST_API_TOKEN || isFalsyStr env.SLACK_SIGNING_SECRET) = false →
      verifySlackSignature (env.SLACK_SIGNING_SECRET.getD "")
        ((event.headers.lookup "x-slack-signature").getD "")
        ((event.headers.lookup "x-slack-request-timestamp").getD "")
        (getRequestBody event) nowMs = .ok false →
      handler env event nowMs tzOffsetMin fetchResult =
        .ok (jsonResponse 401 (.textOnly "Invalid request signature"))) ∧
    (∀ (env : Env) (event : APIGatewayEvent) (nowMs : Nat) (tzOffsetMin : Int)
        (fetchResult : Except String (List TodoistTask)),
      (isFalsyStr env.TODOIST_API_TOKEN || isFalsyStr env.SLACK_SIGNING_SECRET) = false →
      verifySlackSignature (env.SLACK_SIGNING_SECRET.getD "")
        ((event.headers.lookup "x-slack-signature").getD "")
        ((event.headers.lookup "x-slack-request-timestamp").getD "")
        (getRequestBody event) nowMs = .ok true →
      isAllowedUser (lookupParam (parseSlackBody (getRequestBody event)) "user_id") = false →
      handler env event nowMs tzOffsetMin fetchResult =
        .ok (slackErrorResponse
          "🔒 This is a test app by Anil. Please reach out to anil@beneathatree.com if you need access.")) ∧
    (∀ (env : Env) (event : APIGatewayEvent) (nowMs : Nat) (tzOffsetMin : Int)
        (e : String),
      (isFalsyStr env.TODOIST_API_TOKEN || isFalsyStr env.SLACK_SIGNING_SECRET) = false →
      verifySlackSignature (env.SLACK_SIGNING_SECRET.getD "")
        ((event.headers.lookup "x-slack-signature").getD "")
        ((event.headers.lookup "x-slack-request-timestamp").getD "")
        (getRequestBody event) nowMs = .ok true →
      isAllowedUser (lookupParam (parseSlackBody (getRequestBody event)) "user_id") = true →
      handler env event nowMs tzOffsetMin (.error e) =
        .ok (slackErrorResponse
          "Sorry, there was an error fetching your tasks. Please try again later.")) := by
  refine ⟨?_, ?_, ?_, ?_⟩
  · intro env event nowMs tz fetchResult hcfg
    simp [handler, hcfg]
  · intro env event nowMs tz fetchResult hcfg hver
    simp [handler, hcfg, hver]
  · intro env event nowMs tz fetchResult hcfg hver huser
    simp [handler, hcfg, hver, huser]
  · intro env event nowMs tz e hcfg hver huser
    simp [handler, hcfg, hver, huser]

theorem handler_status_mapping_witness :
    handler { TODOIST_API_TOKEN := none, SLACK_SIGNING_SECRET := none }
      (signedEvent "s" "100000" "user_id=U6AHGJPPZ") 0 0 (.ok []) =
      .ok (jsonResponse 500 (.textOnly "Server configuration error")) ∧
    handler { TODOIST_API_TOKEN := some "t", SLACK_SIGNING_SECRET := some "s" }
      wrongSigEvent 0 0 (.ok []) =
      .ok (jsonResponse 401 (.textOnly "Invalid request signature")) ∧
    handler { TODOIST_API_TOKEN := some "t", SLACK_SIGNING_SECRET := some "s" }
      (signedEvent "s" "100000" "user_id=UNOBODY") 0 0 (.ok []) =
      .ok (slackErrorResponse
        "🔒 This is a test app by Anil. Please reach out to anil@beneathatree.com if you need access.") ∧
    handler { TODOIST_API_TOKEN := some "t", SLACK_SIGNING_SECRET := some "s" }
      (signedEvent "s" "100000" "user_id=U6AHGJPPZ") 0 0 (.error "boom") =
      .ok (slackErrorResponse
        "Sorry, there was an error fetching your tasks. Please try again later.") :=
  ⟨handler_status_mapping.1 _ _ 0 0 _ (by decide),
   handler_status_mapping.2.1 _ _ 0 0 _ (by decide) (by decide),
   handler_status_mapping.2.2.1 _ _ 0 0 _ (by decide) (by decide) (by decide),
   handler_status_mapping.2.2.2 _ _ 0 0 "boom" (by decide) (by decide) (by decide)⟩

/-- Claim C9: a request that passes signature verification but whose caller
is not on the allow-list gets HTTP 200 with an ephemeral body whose text
contains the contact address, and no blocks field at all. -/
theorem unauthorized_caller_response
    (env : Env) (event : APIGatewayEvent) (nowMs : Nat) (tzOffsetMin : Int)
    (fetchResult : Except String (List TodoistTask))
    (hcfg : (isFalsyStr env.TODOIST_API_TOKEN || isFalsyStr env.SLACK_SIGNING_SECRET) = false)
    (hver : verifySlackSignature (env.SLACK_SIGNING_SECRET.getD "")
      ((event.headers.lookup "x-slack-signature").getD "")
      ((event.headers.lookup "x-slack-request-timestamp").getD "")
      (getRequestBody event) nowMs = .ok true)
    (huser : isAllowedUser (lookupParam (parseSlackBody (getRequestBody event)) "user_id") = false) :
    handler env event nowMs tzOffsetMin fetchResult =
      .ok { statusCode := 200,
            headers := [("Content-Type", "application/json")],
            body := .slack
              { response_type := "ephemeral",
                blocks := none,
                text := "🔒 This is a test app by Anil. Please reach out to anil@beneathatree.com if you need access." } } ∧
    (∃ pre post,
      "🔒 This is a test app by Anil. Please reach out to anil@beneathatree.com if you need access." =
        pre ++ "anil@beneathatree.com" ++ post) := by
  constructor
  · simp [handler, hcfg, hver, huser, slackErrorResponse, jsonResponse]
  · exact ⟨"🔒 This is a test app by Anil. Please reach out to ",
           " if you need access.", by decide⟩

theorem unauthorized_caller_response_witness :
    (handler { TODOIST_API_TOKEN := some "t", SLACK_SIGNING_SECRET := some "s" }
      (signedEvent "s" "100000" "user_id=UNOBODY") 12345 330 (.ok []) =
      .ok { statusCode := 200,
            headers := [("Content-Type", "application/json")],
            body := .slack
              { response_type := "ephemeral",
                blocks := none,
                text := "🔒 This is a test app by Anil. Please reach out to anil@beneathatree.com if you need access." } }) ∧
    (∃ pre post,
      "🔒 This is a test app by Anil. Please reach out to anil@beneathatree.com if you need access." =
        pre ++ "anil@beneathatree.com" ++ post) :=
  unauthorized_caller_response _ _ 12345 330 (.ok [])
    (by decide) (by decide) (by decide)

/-- Claim C10: in the completed-tasks variant, when no upstream project is
named "Work" the completed-task fetch short-circuits to the empty list (the
conclusion holds for every `completedResult`, including a failing one, so no
completed-tasks request is consulted) and the handler succeeds with the
active tasks only. -/
theorem no_work_project_succeeds_with_active_only
    (env : Env) (event : APIGatewayEvent) (nowMs : Nat)
    (projects : List Part000.TodoistProject) (active : List TodoistTask)
    (completedResult : Except String (List Part000.CompletedTask))
    (hcfg : (isFalsyStr env.TODOIST_API_TOKEN || isFalsyStr env.SLACK_SIGNING_SECRET) = false)
    (hver : verifySlackSignature (env.SLACK_SIGNING_SECRET.getD "")
      ((event.headers.lookup "x-slack-signature").getD "")
      ((event.headers.lookup "x-slack-request-timestamp").getD "")
      (getRequestBody event) nowMs = .ok true)
    (huser : isAllowedUser (lookupParam (parseSlackBody (getRequestBody event)) "user_id") = true)
    (hwork : ∀ p ∈ projects, p.name ≠ "Work") :
    Part000.handler env event nowMs (.ok projects) (.ok active) completedResult =
      .ok (jsonResponse 200 (.slack
        (Part000.formatTasksForSlack { active := active, completed := [] }))) := by
  have hfind : projects.find? (fun p => p.name = "Work") = none :=
    List.find?_eq_none.mpr (fun x hx => by simpa using hwork x hx)
  simp [Part000.handler, hcfg, hver, huser, Part000.fetchWorkProjectId, hfind,
        Part000.fetchCompletedTodayTasks]

theorem no_work_project_witness :
    Part000.handler { TODOIST_API_TOKEN := some "t", SLACK_SIGNING_SECRET := some "s" }
      (signedEvent "s" "100000" "user_id=U6AHGJPPZ") 0
      (.ok [{ id := "7", name := "Personal" }]) (.ok [])
      (.error "completed endpoint unavailable") =
      .ok (jsonResponse 200 (.slack
        (Part000.formatTasksForSlack { active := [], completed := [] }))) :=
  no_work_project_succeeds_with_active_only _ _ 0 _ _ _
    (by decide) (by decide) (by decide) (by decide)

/-! ## Plain-text summary (claim C5) -/

/-- A task with no due info, duration or priority label. -/
def plainTask : TodoistTask :=
  { id := "1", content := "c", description := "", priority := 1,
    due := none, duration := none, project_id := "p", labels := [],
    is_completed := false }

/-- Claim C5, counterexample: with a single task, joining its one-line
rendering with any delimiter gives back just that line, but the summary text
additionally carries the "Today's Tasks (n): " header prefix, so the two are
not equal. -/
theorem summary_not_equal_to_joined_lines :
    (formatTasksForSlack 0 [plainTask]).text ≠ formatUnscheduledTask plainTask ∧
    String.intercalate ", " [formatUnscheduledTask plainTask] =
      formatUnscheduledTask plainTask := by
  have hs : sortTasksBySchedule [plainTask] = [plainTask] := by
    simp [sortTasksBySchedule]
  constructor
  · simp only [formatTasksForSlack, hs]
    decide
  · decide

/-- Claim C5 as amended: for every non-empty task input the summary text is
populated and equals the fixed "Today's Tasks (n): " header prefix followed
by the one-line task renderings joined with ", " — the same lines, in the
same order, that the rich section blocks show (scheduled lines first, then
unscheduled ones). -/
theorem summary_text_structure (tzOffsetMin : Int) (tasks : List TodoistTask)
    (h : tasks ≠ []) :
    (formatTasksForSlack tzOffsetMin tasks).text =
      "Today's Tasks (" ++ toString tasks.length ++ "): " ++
        String.intercalate ", "
          (((sortTasksBySchedule tasks).filter hasDatetime).map
              (formatScheduledTask tzOffsetMin) ++
           ((sortTasksBySchedule tasks).filter (fun t => !hasDatetime t)).map
              formatUnscheduledTask) ∧
    (formatTasksForSlack tzOffsetMin tasks).text ≠ "" ∧
    (((sortTasksBySchedule tasks).filter hasDatetime).length > 0 →
      ({ type := "section",
         text := some
           { type := "mrkdwn",
             text := String.intercalate "\n"
               (((sortTasksBySchedule tasks).filter hasDatetime).map
                 (formatScheduledTask tzOffsetMin)),
             emoji := none },
         elements := none } : SlackBlock) ∈
        (formatTasksForSlack tzOffsetMin tasks).blocks.getD []) ∧
    (((sortTasksBySchedule tasks).filter (fun t => !hasDatetime t)).length > 0 →
      ({ type := "section",
         text := some
           { type := "mrkdwn",
             text := "_Anytime_\n" ++ String.intercalate "\n"
               (((sortTasksBySchedule tasks).filter (fun t => !hasDatetime t)).map
                 formatUnscheduledTask),
             emoji := none },
         elements := none } : SlackBlock) ∈
        (formatTasksForSlack tzOffsetMin tasks).blocks.getD []) := by
  have hne : ¬ (tasks.length = 0) := by simpa [List.length_eq_zero] using h
  refine ⟨?_, ?_, ?_, ?_⟩
  · simp [formatTasksForSlack, hne]
  · have heq : (formatTasksForSlack tzOffsetMin tasks).text =
      "Today's Tasks (" ++ toString tasks.length ++ "): " ++
        String.intercalate ", "
          (((sortTasksBySchedule tasks).filter hasDatetime).map
              (formatScheduledTask tzOffsetMin) ++
           ((sortTasksBySchedule tasks).filter (fun t => !hasDatetime t)).map
              formatUnscheduledTask) := by
      simp [formatTasksForSlack, hne]
    rw [heq]
    intro hcontr
    have hlen := congrArg String.length hcontr
    rw [String.length_append, String.length_append, String.length_append] at hlen
    have hA : ("Today's Tasks (" : String).length = 15 := by decide
    have h0 : ("" : String).length = 0 := by decide
    omega
  · intro hsched
    simp [formatTasksForSlack, hne, hsched]
  · intro hun
    simp [formatTasksForSlack, hne, hun]

theorem summary_text_structure_witness :
    [plainTask] ≠ [] ∧
    ((formatTasksForSlack 0 [plainTask]).text =
      "Today's Tasks (" ++ toString ([plainTask] : List TodoistTask).length ++ "): " ++
        String.intercalate ", "
          (((sortTasksBySchedule [plainTask]).filter hasDatetime).map
              (formatScheduledTask 0) ++
           ((sortTasksBySchedule [plainTask]).filter (fun t => !hasDatetime t)).map
              formatUnscheduledTask) ∧
    (formatTasksForSlack 0 [plainTask]).text ≠ "" ∧
    (((sortTasksBySchedule [plainTask]).filter hasDatetime).length > 0 →
      ({ type := "section",
         text := some
           { type := "mrkdwn",
             text := String.intercalate "\n"
               (((sortTasksBySchedule [plainTask]).filter hasDatetime).map
                 (formatScheduledTask 0)),
             emoji := none },
         elements := none } : SlackBlock) ∈
        (formatTasksForSlack 0 [plainTask]).blocks.getD []) ∧
    (((sortTasksBySchedule [plainTask]).filter (fun t => !hasDatetime t)).length > 0 →
      ({ type := "section",
         text := some
           { type := "mrkdwn",
             text := "_Anytime_\n" ++ String.intercalate "\n"
               (((sortTasksBySchedule [plainTask]).filter (fun t => !hasDatetime t)).map
                 formatUnscheduledTask),
             emoji := none },
         elements := none } : SlackBlock) ∈
        (formatTasksForSlack 0 [plainTask]).blocks.getD [])) :=
  ⟨by decide, summary_text_structure 0 [plainTask] (by decide)⟩

/-- A mixed demo list: two tasks sharing a due time (a tie), one earlier
task, and one task without a due time. -/
def demoTasks : List TodoistTask :=
  [{ id := "a", content := "a", description := "", priority := 1,
     due := some { date := "2026-10-11", datetime := some 1760160600000, string := "" },
     duration := none, project_id := "p", labels := [], is_completed := false },
   { id := "b", content := "b", description := "", priority := 1,
     due := none, duration := none, project_id := "p", labels := [],
     is_completed := false },
   { id := "c", content := "c", description := "", priority := 1,
     due := some { date := "2026-10-11", datetime := some 1760130600000, string := "" },
     duration := none, project_id := "p", labels := [], is_completed := false },
   { id := "d", content := "d", description := "", priority := 1,
     due := some { date := "2026-10-11", datetime := some 1760160600000, string := "" },
     duration := none, project_id := "p", labels := [], is_completed := false }]

theorem sortTasksBySchedule_stable_and_total_witness :
    (∀ t ∈ demoTasks, validTimeValue t = true) ∧
    (List.Perm (sortTasksBySchedule demoTasks) demoTasks ∧
     (sortTasksBySchedule demoTasks).Pairwise
       (fun a b => getTaskSortKey a ≤ getTaskSortKey b) ∧
     (sortTasksBySchedule demoTasks).Pairwise
       (fun a b => hasDatetime b = true → hasDatetime a = true) ∧
     (∀ k : Int,
       (sortTasksBySchedule demoTasks).filter (fun t => getTaskSortKey t == k) =
         demoTasks.filter (fun t => getTaskSortKey t == k))) :=
  ⟨by decide, sortTasksBySchedule_stable_and_total demoTasks (by decide)⟩
